import Mathlib

/-
Shallow embedding of ext/rugged/rugged_remote.c — the Rugged::Remote bindings
of the rugged library (remote management and fetch orchestration on top of
libgit2). Pure configuration state of a git remote is modelled as a Lean
structure; the fallible libgit2 collaborator calls are modelled by threading
their integer result codes (an environment of error codes chosen adversarially),
and the side effects that the claims speak about (freeing the transient working
remote, disconnecting, raising) are recorded as explicit action traces.
-/

set_option autoImplicit false

/-- Success return code of the libgit2 collaborator (`GIT_OK`). -/
def GIT_OK : Int := 0

/-- Generic error return code (`GIT_ERROR`), also used by the rugged callbacks
to abort an in-flight libgit2 operation. -/
def GIT_ERROR : Int := -1

/-- Error code of the libgit2 collaborator for a missing entity
(`GIT_ENOTFOUND`). -/
def GIT_ENOTFOUND : Int := -3

/-- Bit of the allowed-kinds bitset for a plaintext username/password
credential (`GIT_CREDTYPE_USERPASS_PLAINTEXT = 1 << 0`). -/
def GIT_CREDTYPE_USERPASS_PLAINTEXT : Nat := 1

/-- Bit of the allowed-kinds bitset for an ssh-key credential
(`GIT_CREDTYPE_SSH_KEY = 1 << 1`). -/
def GIT_CREDTYPE_SSH_KEY : Nat := 2

/-- Bit of the allowed-kinds bitset for a default (negotiated) credential
(`GIT_CREDTYPE_DEFAULT = 1 << 3`). -/
def GIT_CREDTYPE_DEFAULT : Nat := 8

/-- Modelled from rugged.c (not under src/), per spec section 7:
`rugged_exception_check` raises a Rugged exception exactly for negative
libgit2 error codes and is a no-op otherwise. -/
def rugged_exception_check (errorcode : Int) : Except Int Unit :=
  if errorcode < 0 then Except.error errorcode else Except.ok ()

/-- Character-list version of a string prefix test (used to keep the url
validity model kernel-evaluable). -/
def charsStart : List Char → List Char → Bool
  | [], _ => true
  | _ :: _, [] => false
  | p :: ps, c :: cs => p == c && charsStart ps cs

/-- String `s` begins with `pre`. -/
def strStarts (pre s : String) : Bool := charsStart pre.toList s.toList

/-- Modelled collaborator `git_remote_valid_url` (libgit2, spec section 6
`urlIsSyntacticallyValid`): a url is valid when it carries a supported
transport scheme or looks like an scp-style ssh path. -/
def git_remote_valid_url (url : String) : Bool :=
  strStarts "git://" url || strStarts "http://" url || strStarts "https://" url ||
  strStarts "ssh://" url || strStarts "git+ssh://" url || strStarts "ssh+git://" url ||
  strStarts "file://" url || (url.toList.contains '@' && url.toList.contains ':')

/-- Modelled collaborator (libgit2 refspec parse, spec section 3: a refspec
string must be non-empty and satisfy pattern syntax): non-empty after an
optional leading `+` force marker, with at most one `:` separator. -/
def git_refspec_valid (spec : String) : Bool :=
  let cs := spec.toList
  let body := if cs.head? = some '+' then cs.drop 1 else cs
  !body.isEmpty && decide (body.count ':' ≤ 1)

/-- Autotag download policy of a remote (spec section 3: None, Auto, All). -/
inductive AutotagPolicy
  | tagsAuto
  | tagsNone
  | tagsAll
deriving DecidableEq

/-- Configuration state of a `git_remote` as the bindings observe it: optional
name, fetch url, optional push url, the two refspec lists and the autotag
policy. -/
structure GitRemote where
  name : Option String
  url : String
  pushurl : Option String
  fetchRefspecs : List String
  pushRefspecs : List String
  autotag : AutotagPolicy
deriving DecidableEq

/-- Modelled collaborator `git_remote_name`: the configured name, NULL (none)
for an in-memory remote. -/
def git_remote_name (r : GitRemote) : Option String := r.name

/-- Modelled collaborator `git_remote_url`. -/
def git_remote_url (r : GitRemote) : String := r.url

/-- Modelled collaborator `git_remote_pushurl`: the dedicated push url or NULL
(none) when no push url was explicitly set (no fallback happens here). -/
def git_remote_pushurl (r : GitRemote) : Option String := r.pushurl

/-- Modelled collaborator `git_remote_autotag`. -/
def git_remote_autotag (r : GitRemote) : AutotagPolicy := r.autotag

/-- Modelled collaborator `git_remote_set_autotag`. -/
def git_remote_set_autotag (r : GitRemote) (p : AutotagPolicy) : GitRemote :=
  { r with autotag := p }

/-- Modelled collaborator `git_remote_get_fetch_refspecs`. -/
def git_remote_get_fetch_refspecs (r : GitRemote) : List String := r.fetchRefspecs

/-- Modelled collaborator `git_remote_set_fetch_refspecs`. -/
def git_remote_set_fetch_refspecs (r : GitRemote) (specs : List String) : GitRemote :=
  { r with fetchRefspecs := specs }

/-- Modelled collaborator `git_remote_add_fetch`: appends a fetch refspec when
it parses, returns an error code and leaves the remote unchanged otherwise. -/
def git_remote_add_fetch (r : GitRemote) (spec : String) : Int × GitRemote :=
  if git_refspec_valid spec then (GIT_OK, { r with fetchRefspecs := r.fetchRefspecs ++ [spec] })
  else (GIT_ERROR, r)

/-- Modelled collaborator `git_remote_create_inmemory` with a NULL name and a
NULL fetch refspec: an anonymous, unpersisted remote for the given url. -/
def git_remote_create_inmemory (url : String) : GitRemote :=
  { name := none, url := url, pushurl := none, fetchRefspecs := [], pushRefspecs := [],
    autotag := AutotagPolicy.tagsAuto }

/-- Repository-scoped remote registry: the persisted (configured) remotes by
name. An in-memory remote never enters this catalog. -/
structure GitRepository where
  remotes : List (String × GitRemote)
deriving DecidableEq

/-- Modelled collaborator `git_remote_list`: the names of the configured
remotes of the repository. -/
def git_remote_list (repo : GitRepository) : List String :=
  repo.remotes.map Prod.fst

/-- Embedding of `rb_git_remote_new` (Remote.new): validates the url, creates
an in-memory remote with a NULL name, and does not touch the repository's
remote catalog. Raising `ArgumentError` is the error case. -/
def rb_git_remote_new (repo : GitRepository) (rb_url : String) :
    Except String (GitRepository × GitRemote) :=
  if !git_remote_valid_url rb_url then Except.error "Invalid URL format"
  else Except.ok (repo, git_remote_create_inmemory rb_url)

/-- Embedding of `rb_git_remote_names` (Remote.names): the configured remote
names of the repository. -/
def rb_git_remote_names (repo : GitRepository) : List String :=
  git_remote_list repo

/-- Embedding of `rb_git_remote_name` (remote.name): the name, nil (none) for
an anonymous remote. -/
def rb_git_remote_name (r : GitRemote) : Option String :=
  git_remote_name r

/-- Embedding of `rb_git_remote_push_url` (remote.push_url): the push url as a
Ruby string, nil (none) when `git_remote_pushurl` yields NULL. -/
def rb_git_remote_push_url (r : GitRemote) : Option String :=
  match git_remote_pushurl r with
  | some u => some u
  | none => none

/-- Ruby-level return value of Remote.lookup: nil or a wrapped remote. -/
inductive LookupReturn
  | nilRet
  | remoteRet (r : GitRemote)
deriving DecidableEq

/-- Embedding of `rb_git_remote_lookup` (Remote.lookup): `git_remote_load`'s
result code is the environment. `GIT_ENOTFOUND` is turned into nil; any other
result goes through `rugged_exception_check`; on success the loaded remote is
wrapped and returned. -/
def rb_git_remote_lookup (loadErr : Int) (loaded : GitRemote) : Except Int LookupReturn :=
  if loadErr = GIT_ENOTFOUND then Except.ok LookupReturn.nilRet
  else
    match rugged_exception_check loadErr with
    | Except.error e => Except.error e
    | Except.ok _ => Except.ok (LookupReturn.remoteRet loaded)

/-- Ruby-level return value of remote.rename!: nil or an array of fetch
refspec strings. -/
inductive RenameReturn
  | nilRet
  | refspecArray (specs : List String)
deriving DecidableEq

/-- Embedding of `cb_remote__rename_problem`: pushes the problematic refspec
name onto the payload array and reports success. -/
def cb_remote__rename_problem (refspec_name : String) (payload : List String) : List String :=
  payload ++ [refspec_name]

/-- Embedding of `rb_git_remote_rename` (remote.rename!): `git_remote_rename`
(modelled by its result code plus the sequence of refspec names it reports to
`cb_remote__rename_problem`) fills the problem array; a negative result raises;
otherwise nil is returned when the array stayed empty, else the array. -/
def rb_git_remote_rename (renameErr : Int) (problems : List String) : Except Int RenameReturn :=
  let rb_refspec_ary := problems.foldl (fun acc n => cb_remote__rename_problem n acc) []
  match rugged_exception_check renameErr with
  | Except.error e => Except.error e
  | Except.ok _ =>
      Except.ok (if rb_refspec_ary.length = 0 then RenameReturn.nilRet
                 else RenameReturn.refspecArray rb_refspec_ary)

/-- A Ruby credential object as `rugged__extract_cred` discriminates it: an
instance of one of the three Rugged::Credentials classes (with its instance
variables), or any other object. -/
inductive CredObj
  | plaintext (username password : String)
  | sshKey (username publickey : Option String) (privatekey : String) (passphrase : Option String)
  | defaultCred
  | otherObject
deriving DecidableEq

/-- A constructed libgit2 credential (`git_cred`). -/
inductive GitCred
  | userpassPlaintext (username password : String)
  | sshKey (username publickey : Option String) (privatekey : String) (passphrase : Option String)
  | defaultCred
deriving DecidableEq

/-- Result of running `rugged__extract_cred`: either it raised (rb_raise of an
ArgumentError with the given message) or it returned normally, having stored
at most one credential through the output pointer. -/
inductive ExtractResult
  | raised (msg : String)
  | ok (cred : Option GitCred)
deriving DecidableEq

/-- Embedding of `rugged__extract_cred`: dispatches on the class of the Ruby
credential object; for each recognized class it first tests a bit of the
challenge's allowed-kinds bitset (note: the Default branch tests
`GIT_CREDTYPE_SSH_KEY`, exactly as the C does) and raises "Invalid credential
type" when the bit is absent, else builds the libgit2 credential; an object of
no recognized class falls through and returns normally with no credential. -/
def rugged__extract_cred (rb_cred : CredObj) (allowed_types : Nat) : ExtractResult :=
  match rb_cred with
  | CredObj.plaintext u p =>
      if allowed_types &&& GIT_CREDTYPE_USERPASS_PLAINTEXT = 0 then
        ExtractResult.raised "Invalid credential type"
      else
        ExtractResult.ok (some (GitCred.userpassPlaintext u p))
  | CredObj.sshKey u pub priv pass =>
      if allowed_types &&& GIT_CREDTYPE_SSH_KEY = 0 then
        ExtractResult.raised "Invalid credential type"
      else
        ExtractResult.ok (some (GitCred.sshKey u pub priv pass))
  | CredObj.defaultCred =>
      if allowed_types &&& GIT_CREDTYPE_SSH_KEY = 0 then
        ExtractResult.raised "Invalid credential type"
      else
        ExtractResult.ok (some GitCred.defaultCred)
  | CredObj.otherObject => ExtractResult.ok none

/-- Embedding of the allowed-kind symbol list built by
`rugged__remote_credentials_cb` for the dynamic resolver: one symbol per bit
set in the challenge's allowed-kinds bitset. -/
def allowed_type_symbols (allowed_types : Nat) : List String :=
  (if allowed_types &&& GIT_CREDTYPE_USERPASS_PLAINTEXT ≠ 0 then ["plaintext"] else []) ++
  (if allowed_types &&& GIT_CREDTYPE_SSH_KEY ≠ 0 then ["ssh_key"] else []) ++
  (if allowed_types &&& GIT_CREDTYPE_DEFAULT ≠ 0 then ["default"] else [])

/-- Embedding of `rugged__default_remote_credentials_cb` (static credential
strategy): runs `rugged__extract_cred` on the statically configured credential
under rb_protect; a raise becomes the pending callback exception and the
callback returns `GIT_ERROR`, otherwise it returns `GIT_OK` together with
whatever credential (possibly none) was stored. -/
def rugged__default_remote_credentials_cb (staticCred : CredObj) (allowed_types : Nat) :
    Int × Option GitCred :=
  match rugged__extract_cred staticCred allowed_types with
  | ExtractResult.raised _msg => (GIT_ERROR, none)
  | ExtractResult.ok c => (GIT_OK, c)

/-- Embedding of `rugged__remote_credentials_cb` (dynamic resolver strategy):
the resolver is called under rb_protect (its outcome — a raised tag or a Ruby
value — is the environment); when it did not raise, its return value goes
through `rugged__extract_cred`; any pending exception makes the callback
return `GIT_ERROR`, else `GIT_OK` with the stored credential. -/
def rugged__remote_credentials_cb (resolverOutcome : Except Int CredObj) (allowed_types : Nat) :
    Int × Option GitCred :=
  match resolverOutcome with
  | Except.error _tag => (GIT_ERROR, none)
  | Except.ok rb_cred =>
      match rugged__extract_cred rb_cred allowed_types with
      | ExtractResult.raised _msg => (GIT_ERROR, none)
      | ExtractResult.ok c => (GIT_OK, c)

/-- A remote head as libgit2 advertises it (`git_remote_head`): local flag,
oid, local oid (an all-zero oid meaning absent), and symbolic name. -/
structure GitRemoteHead where
  isLocal : Bool
  oid : String
  loid : String
  name : String
deriving DecidableEq

/-- Modelled collaborator `git_oid_iszero`: every digit of the textual oid is
zero. -/
def git_oid_iszero (oid : String) : Bool :=
  oid.toList.all (fun c => c == '0')

/-- The Ruby hash yielded per head by remote.ls. -/
structure RubyRemoteHead where
  isLocal : Bool
  oid : String
  loid : Option String
  name : String
deriving DecidableEq

/-- Embedding of `rugged_rhead_new`: converts a `git_remote_head` to the Ruby
hash, mapping an all-zero local oid to nil. -/
def rugged_rhead_new (h : GitRemoteHead) : RubyRemoteHead :=
  { isLocal := h.isLocal, oid := h.oid,
    loid := if git_oid_iszero h.loid then none else some h.loid,
    name := h.name }

/-- Observable actions of one `rb_git_remote_ls` run, in program order. -/
inductive LsAction
  | connect
  | yieldHead (h : RubyRemoteHead)
  | disconnect
  | raiseJump (tag : Int)
  | raiseGitError (code : Int)
  | retNil
deriving DecidableEq

/-- Environment of one `rb_git_remote_ls` run (a consumer block is given):
the result codes of `git_remote_connect` and `git_remote_ls`, the head array
`git_remote_ls` produced, and for each yield index the rb_protect state-tag
the consumer block left behind (0 = returned normally). -/
structure LsEnv where
  connectErr : Int
  lsErr : Int
  heads : List GitRemoteHead
  yieldException : Nat → Int

/-- Embedding of the yield loop of `rb_git_remote_ls`
(`for (i = 0; i < heads_len && !exception; i++) rb_protect(rb_yield, ...)`):
yields heads in order until the consumer raises, returning the actions emitted
and the final rb_protect exception tag (0 when the consumer drained all
heads). -/
def ls_yield_loop (exc : Nat → Int) : List GitRemoteHead → Nat → List LsAction × Int
  | [], _ => ([], 0)
  | h :: rest, i =>
      if exc i ≠ 0 then ([LsAction.yieldHead (rugged_rhead_new h)], exc i)
      else
        (LsAction.yieldHead (rugged_rhead_new h) :: (ls_yield_loop exc rest (i + 1)).1,
         (ls_yield_loop exc rest (i + 1)).2)

/-- The action `rb_git_remote_ls` ends with after disconnecting: re-raise the
consumer's exception when one is pending (`rb_jump_tag`), else raise for a
negative `git_remote_ls` code (`rugged_exception_check`), else return nil. -/
def ls_outcome (error exception : Int) : LsAction :=
  if exception ≠ 0 then LsAction.raiseJump exception
  else
    match rugged_exception_check error with
    | Except.error e => LsAction.raiseGitError e
    | Except.ok _ => LsAction.retNil

/-- Embedding of `rb_git_remote_ls` (remote.ls with a block): connect — a
negative connect code raises immediately, before any disconnect — then list,
yield each head until the consumer raises, disconnect unconditionally, and
finish with `ls_outcome`. -/
def rb_git_remote_ls (env : LsEnv) : List LsAction :=
  if env.connectErr < 0 then
    [LsAction.connect, LsAction.raiseGitError env.connectErr]
  else
    LsAction.connect :: (ls_yield_loop env.yieldException env.heads 0).1 ++
      [LsAction.disconnect,
       ls_outcome env.lsErr (ls_yield_loop env.yieldException env.heads 0).2]

/-- Observable actions of one `rb_git_remote_fetch` run. -/
inductive FetchAction
  | freeTmpRemote
  | raiseJump (tag : Int)
  | raiseGitError (code : Int)
  | retNil
deriving DecidableEq

/-- Environment of one `rb_git_remote_fetch` run: result codes of the fallible
collaborator calls (`git_remote_create_inmemory`, `git_remote_set_callbacks`,
`git_remote_get_fetch_refspecs`, `git_remote_set_fetch_refspecs`,
`git_remote_fetch`) and the rb_protect exception tag the Ruby callbacks left
in the payload during the transfer (0 = none). -/
structure FetchEnv where
  createErr : Int
  setCallbacksErr : Int
  getRefspecsErr : Int
  setRefspecsErr : Int
  transferErr : Int
  callbackException : Int

/-- Result of one `rb_git_remote_fetch` run: the emitted actions in order, the
state of the transient working remote at the moment it is freed, the caller's
remote afterwards, and whether `git_remote_fetch` was reached. -/
structure FetchResult where
  trace : List FetchAction
  freedRemote : GitRemote
  callerRemote : GitRemote
  transferRan : Bool

/-- The action the cleanup epilogue of `rb_git_remote_fetch` ends with:
re-raise a pending callback exception (`rb_jump_tag`), else raise for a
negative error code (`rugged_exception_check`), else return nil. -/
def fetch_outcome (error exception : Int) : FetchAction :=
  if exception ≠ 0 then FetchAction.raiseJump exception
  else
    match rugged_exception_check error with
    | Except.error e => FetchAction.raiseGitError e
    | Except.ok _ => FetchAction.retNil

/-- Embedding of the `cleanup:` label of `rb_git_remote_fetch`: free the
working remote first, then resolve the outcome. -/
def fetch_cleanup (error exception : Int) (tmp remote : GitRemote) (ran : Bool) : FetchResult :=
  { trace := [FetchAction.freeTmpRemote, fetch_outcome error exception],
    freedRemote := tmp, callerRemote := remote, transferRan := ran }

/-- The transient working remote `rb_git_remote_fetch` builds: an in-memory
remote on the caller remote's url, with the caller's autotag policy copied
over. -/
def fetch_tmp_remote (remote : GitRemote) : GitRemote :=
  git_remote_set_autotag (git_remote_create_inmemory (git_remote_url remote))
    (git_remote_autotag remote)

/-- Embedding of the refspec-override installation loop of
`rb_git_remote_fetch` (`for (i = 0; !error && i < len; ++i) error =
git_remote_add_fetch(tmp_remote, ...)`): stops at the first failing refspec. -/
def add_fetch_loop : GitRemote → List String → Int × GitRemote
  | r, [] => (GIT_OK, r)
  | r, spec :: rest =>
      if (git_remote_add_fetch r spec).1 ≠ 0 then git_remote_add_fetch r spec
      else add_fetch_loop (git_remote_add_fetch r spec).2 rest

/-- Embedding of the refspec-installation and transfer phase of
`rb_git_remote_fetch` (entered once callbacks are installed): with an override
list, install exactly those refspecs on the working remote (a failing install
goes to cleanup); without one, copy the caller's current fetch refspecs onto
the working remote; then run `git_remote_fetch` and reach cleanup. -/
def fetch_install_and_transfer (remote : GitRemote) (env : FetchEnv) :
    Option (List String) → FetchResult
  | some specs =>
      if (add_fetch_loop (fetch_tmp_remote remote) specs).1 ≠ 0 then
        fetch_cleanup (add_fetch_loop (fetch_tmp_remote remote) specs).1 0
          (add_fetch_loop (fetch_tmp_remote remote) specs).2 remote false
      else
        fetch_cleanup env.transferErr env.callbackException
          (add_fetch_loop (fetch_tmp_remote remote) specs).2 remote true
  | none =>
      if env.getRefspecsErr ≠ 0 then
        fetch_cleanup env.getRefspecsErr 0 (fetch_tmp_remote remote) remote false
      else if env.setRefspecsErr ≠ 0 then
        fetch_cleanup env.setRefspecsErr 0 (fetch_tmp_remote remote) remote false
      else
        fetch_cleanup env.transferErr env.callbackException
          (git_remote_set_fetch_refspecs (fetch_tmp_remote remote)
            (git_remote_get_fetch_refspecs remote))
          remote true

/-- Embedding of `rb_git_remote_fetch` (remote.fetch): creates the transient
working remote (a failing create raises before any cleanup exists), installs
callbacks (a failure goes straight to cleanup), then installs refspecs and
transfers via `fetch_install_and_transfer`; all post-creation paths reach the
cleanup epilogue. Only the working remote is ever mutated; the caller's remote
is only read. -/
def rb_git_remote_fetch (remote : GitRemote) (rb_refspecs : Option (List String))
    (env : FetchEnv) : FetchResult :=
  if env.createErr < 0 then
    { trace := [FetchAction.raiseGitError env.createErr],
      freedRemote := fetch_tmp_remote remote, callerRemote := remote, transferRan := false }
  else if env.setCallbacksErr ≠ 0 then
    fetch_cleanup env.setCallbacksErr 0 (fetch_tmp_remote remote) remote false
  else
    fetch_install_and_transfer remote env rb_refspecs

/-- C1: the claim says a static credential whose kind is absent from the
challenge's allowed-kinds bitset always fails with a credential error, and in
particular a Default-kind credential is accepted exactly when the default kind
is in the allowed set. The code violates this: the Default branch of
`rugged__extract_cred` tests the ssh-key bit, so on a challenge that allows
only the default kind (whose symbol list advertises exactly "default") the
static Default credential is rejected with "Invalid credential type" and the
callback fails, while on a challenge allowing only the ssh-key kind the
Default credential is accepted even though its own kind is absent. -/
theorem extract_cred_default_checks_ssh_bit :
    allowed_type_symbols GIT_CREDTYPE_DEFAULT = ["default"] ∧
    GIT_CREDTYPE_DEFAULT &&& GIT_CREDTYPE_DEFAULT ≠ 0 ∧
    rugged__extract_cred CredObj.defaultCred GIT_CREDTYPE_DEFAULT =
      ExtractResult.raised "Invalid credential type" ∧
    rugged__default_remote_credentials_cb CredObj.defaultCred GIT_CREDTYPE_DEFAULT =
      (GIT_ERROR, none) ∧
    GIT_CREDTYPE_SSH_KEY &&& GIT_CREDTYPE_DEFAULT = 0 ∧
    rugged__extract_cred CredObj.defaultCred GIT_CREDTYPE_SSH_KEY =
      ExtractResult.ok (some GitCred.defaultCred) := by
  refine ⟨rfl, by decide, rfl, rfl, by decide, rfl⟩

/-- C10: a credential object that is not an instance of any of the three
recognized credential classes makes `rugged__extract_cred` fall through: it
raises no error and stores no credential, and both transport credential
callbacks (static and dynamic strategy) report success (`GIT_OK`) while
leaving the output credential unset. -/
theorem unrecognized_credential_silently_skipped (allowed_types : Nat) :
    rugged__extract_cred CredObj.otherObject allowed_types = ExtractResult.ok none ∧
    rugged__default_remote_credentials_cb CredObj.otherObject allowed_types = (GIT_OK, none) ∧
    rugged__remote_credentials_cb (Except.ok CredObj.otherObject) allowed_types =
      (GIT_OK, none) := by
  refine ⟨rfl, rfl, rfl⟩

/-- C6 counterexample: a remote whose push url was never set has
`rb_git_remote_push_url` equal to nil (none) and not equal to its fetch url,
contradicting the claim that the push url read defaults to the fetch url. -/
theorem push_url_unset_not_fetch_url_counterexample :
    rb_git_remote_push_url
      { name := some "origin", url := "git://example.com/repo.git", pushurl := none,
        fetchRefspecs := [], pushRefspecs := [], autotag := AutotagPolicy.tagsAuto } = none ∧
    rb_git_remote_push_url
      { name := some "origin", url := "git://example.com/repo.git", pushurl := none,
        fetchRefspecs := [], pushRefspecs := [], autotag := AutotagPolicy.tagsAuto } ≠
      some (git_remote_url
      { name := some "origin", url := "git://example.com/repo.git", pushurl := none,
        fetchRefspecs := [], pushRefspecs := [], autotag := AutotagPolicy.tagsAuto }) := by
  refine ⟨rfl, by simp [rb_git_remote_push_url, git_remote_pushurl, git_remote_url]⟩

/-- C6 (amended): reading the push url of a remote whose push url has not been
explicitly set yields nil (an absent value), not the fetch url; when a push
url is set, reading yields exactly that push url. -/
theorem push_url_unset_returns_nil (r : GitRemote) :
    (r.pushurl = none → rb_git_remote_push_url r = none) ∧
    (∀ u : String, r.pushurl = some u → rb_git_remote_push_url r = some u) := by
  constructor
  · intro h
    simp [rb_git_remote_push_url, git_remote_pushurl, h]
  · intro u h
    simp [rb_git_remote_push_url, git_remote_pushurl, h]

/-- C6 witness: the amended claim evaluated on a remote without and on a
remote with an explicit push url. -/
theorem push_url_unset_returns_nil_witness :
    rb_git_remote_push_url
      { name := some "origin", url := "git://example.com/repo.git", pushurl := none,
        fetchRefspecs := [], pushRefspecs := [], autotag := AutotagPolicy.tagsAuto } = none ∧
    rb_git_remote_push_url
      { name := some "origin", url := "git://example.com/repo.git",
        pushurl := some "git@example.com:repo.git",
        fetchRefspecs := [], pushRefspecs := [], autotag := AutotagPolicy.tagsAuto } =
      some "git@example.com:repo.git" := by
  constructor
  · exact (push_url_unset_returns_nil _).1 rfl
  · exact (push_url_unset_returns_nil _).2 "git@example.com:repo.git" rfl

/-- Folding the rename-problem callback over the reported names accumulates
exactly those names in order. -/
theorem rename_problem_fold (problems acc : List String) :
    problems.foldl (fun a n => cb_remote__rename_problem n a) acc = acc ++ problems := by
  induction problems generalizing acc with
  | nil => simp
  | cons p rest ih =>
      simpa [cb_remote__rename_problem, List.append_assoc] using ih (acc ++ [p])

/-- C7 counterexample: a fully successful rename (no problem refspec reported,
result code 0) returns nil, not the empty refspec array the claim calls for. -/
theorem rename_full_success_returns_nil_counterexample :
    rb_git_remote_rename 0 [] = Except.ok RenameReturn.nilRet ∧
    rb_git_remote_rename 0 [] ≠ Except.ok (RenameReturn.refspecArray []) := by
  refine ⟨rfl, by simp [rb_git_remote_rename, rugged_exception_check]⟩

/-- C7 (amended): a successful rename returns nil when every fetch refspec was
auto-migrated (full success), and otherwise returns exactly the non-empty
array of fetch-refspec strings that could not be auto-migrated, in the order
they were reported. -/
theorem rename_returns_unmigrated_or_nil (renameErr : Int) (problems : List String)
    (h : ¬ renameErr < 0) :
    rb_git_remote_rename renameErr problems =
      Except.ok (if problems = [] then RenameReturn.nilRet
                 else RenameReturn.refspecArray problems) := by
  unfold rb_git_remote_rename rugged_exception_check
  rw [if_neg h]
  rw [rename_problem_fold problems []]
  simp only [List.nil_append]
  cases problems with
  | nil => rfl
  | cons p rest => simp

/-- C7 witness: the amended claim evaluated on a fully migrated rename and on
a rename with one problem refspec. -/
theorem rename_returns_unmigrated_or_nil_witness :
    rb_git_remote_rename 0 [] = Except.ok RenameReturn.nilRet ∧
    rb_git_remote_rename 0 ["refs/heads/*:refs/remotes/origin/*"] =
      Except.ok (RenameReturn.refspecArray ["refs/heads/*:refs/remotes/origin/*"]) := by
  constructor
  · exact rename_returns_unmigrated_or_nil 0 [] (by decide)
  · exact rename_returns_unmigrated_or_nil 0 ["refs/heads/*:refs/remotes/origin/*"] (by decide)

/-- C8: Remote.lookup turns exactly the `GIT_ENOTFOUND` result of
`git_remote_load` into a nil return (an absent value, not an error), raises
every other load failure, and wraps the loaded remote on success. -/
theorem lookup_swallows_only_notfound (loadErr : Int) (loaded : GitRemote) :
    (rb_git_remote_lookup loadErr loaded = Except.ok LookupReturn.nilRet ↔
      loadErr = GIT_ENOTFOUND) ∧
    (loadErr < 0 → loadErr ≠ GIT_ENOTFOUND →
      rb_git_remote_lookup loadErr loaded = Except.error loadErr) ∧
    (0 ≤ loadErr → rb_git_remote_lookup loadErr loaded =
      Except.ok (LookupReturn.remoteRet loaded)) := by
  refine ⟨⟨?_, ?_⟩, ?_, ?_⟩
  · intro h
    by_contra hne
    rw [rb_git_remote_lookup, if_neg hne] at h
    unfold rugged_exception_check at h
    by_cases hlt : loadErr < 0
    · rw [if_pos hlt] at h
      exact Except.noConfusion h
    · rw [if_neg hlt] at h
      simp at h
  · intro h
    rw [rb_git_remote_lookup, if_pos h]
  · intro hlt hne
    rw [rb_git_remote_lookup, if_neg hne]
    unfold rugged_exception_check
    rw [if_pos hlt]
  · intro hle
    have hne : loadErr ≠ GIT_ENOTFOUND := by
      intro h
      rw [h] at hle
      exact absurd hle (by decide)
    rw [rb_git_remote_lookup, if_neg hne]
    unfold rugged_exception_check
    rw [if_neg (by omega)]

/-- C8 witness: lookup evaluated at a not-found load, a failing load and a
successful load of a concrete remote. -/
theorem lookup_swallows_only_notfound_witness :
    rb_git_remote_lookup (-3)
      { name := some "origin", url := "git://example.com/repo.git", pushurl := none,
        fetchRefspecs := [], pushRefspecs := [], autotag := AutotagPolicy.tagsAuto } =
      Except.ok LookupReturn.nilRet ∧
    rb_git_remote_lookup (-5)
      { name := some "origin", url := "git://example.com/repo.git", pushurl := none,
        fetchRefspecs := [], pushRefspecs := [], autotag := AutotagPolicy.tagsAuto } =
      Except.error (-5) ∧
    rb_git_remote_lookup 0
      { name := some "origin", url := "git://example.com/repo.git", pushurl := none,
        fetchRefspecs := [], pushRefspecs := [], autotag := AutotagPolicy.tagsAuto } =
      Except.ok (LookupReturn.remoteRet
      { name := some "origin", url := "git://example.com/repo.git", pushurl := none,
        fetchRefspecs := [], pushRefspecs := [], autotag := AutotagPolicy.tagsAuto }) := by
  refine ⟨?_, ?_, ?_⟩
  · exact (lookup_swallows_only_notfound (-3) _).1.mpr rfl
  · exact (lookup_swallows_only_notfound (-5) _).2.1 (by decide) (by decide)
  · exact (lookup_swallows_only_notfound 0 _).2.2 (by decide)

/-- C9: for a valid url, Remote.new returns an anonymous in-memory remote
whose url is the given url and whose name is nil, leaving the repository's
remote catalog untouched, so the anonymous remote never appears in the list of
remote names. -/
theorem anonymous_remote_url_name_unlisted (repo : GitRepository) (u : String)
    (h : git_remote_valid_url u = true) :
    (∃ anon : GitRemote,
      rb_git_remote_new repo u = Except.ok (repo, anon) ∧
      git_remote_url anon = u ∧
      rb_git_remote_name anon = none) ∧
    (∀ (repo2 : GitRepository) (anon2 : GitRemote),
      rb_git_remote_new repo u = Except.ok (repo2, anon2) →
      rb_git_remote_names repo2 = rb_git_remote_names repo) := by
  constructor
  · refine ⟨git_remote_create_inmemory u, ?_, rfl, rfl⟩
    unfold rb_git_remote_new
    rw [h]
    rfl
  · intro repo2 anon2 h2
    unfold rb_git_remote_new at h2
    rw [h] at h2
    simp only [Bool.not_true, Bool.false_eq_true, if_false] at h2
    cases h2
    rfl

/-- C9 witness: Remote.new on a concrete repository with one configured remote
and a concrete valid url. -/
theorem anonymous_remote_url_name_unlisted_witness :
    (∃ anon : GitRemote,
      rb_git_remote_new
        { remotes := [("origin",
          { name := some "origin", url := "git://example.com/repo.git", pushurl := none,
            fetchRefspecs := [], pushRefspecs := [], autotag := AutotagPolicy.tagsAuto })] }
        "git://github.com/libgit2/libgit2.git" =
        Except.ok
          ({ remotes := [("origin",
            { name := some "origin", url := "git://example.com/repo.git", pushurl := none,
              fetchRefspecs := [], pushRefspecs := [], autotag := AutotagPolicy.tagsAuto })] },
           anon) ∧
      git_remote_url anon = "git://github.com/libgit2/libgit2.git" ∧
      rb_git_remote_name anon = none) ∧
    (∀ (repo2 : GitRepository) (anon2 : GitRemote),
      rb_git_remote_new
        { remotes := [("origin",
          { name := some "origin", url := "git://example.com/repo.git", pushurl := none,
            fetchRefspecs := [], pushRefspecs := [], autotag := AutotagPolicy.tagsAuto })] }
        "git://github.com/libgit2/libgit2.git" = Except.ok (repo2, anon2) →
      rb_git_remote_names repo2 =
        rb_git_remote_names
        { remotes := [("origin",
          { name := some "origin", url := "git://example.com/repo.git", pushurl := none,
            fetchRefspecs := [], pushRefspecs := [], autotag := AutotagPolicy.tagsAuto })] }) :=
  anonymous_remote_url_name_unlisted _ "git://github.com/libgit2/libgit2.git" (by decide)

/-- The cleanup outcome pair of a fetch contains exactly one free of the
working remote, at its head. -/
theorem count_free_outcome_pair (e x : Int) :
    ([FetchAction.freeTmpRemote, fetch_outcome e x]).count FetchAction.freeTmpRemote = 1 := by
  unfold fetch_outcome rugged_exception_check
  split
  · rfl
  · split <;> rfl

/-- C2: a fetch, with or without a refspec override, leaves the caller's
remote — in particular its fetch-refspec list — exactly as it was: all
refspec installation happens on the transient working remote only. -/
theorem fetch_never_mutates_caller_remote (remote : GitRemote)
    (rb_refspecs : Option (List String)) (env : FetchEnv) :
    (rb_git_remote_fetch remote rb_refspecs env).callerRemote = remote ∧
    git_remote_get_fetch_refspecs (rb_git_remote_fetch remote rb_refspecs env).callerRemote =
      git_remote_get_fetch_refspecs remote := by
  have h : (rb_git_remote_fetch remote rb_refspecs env).callerRemote = remote := by
    unfold rb_git_remote_fetch
    split
    · rfl
    · split
      · rfl
      · cases rb_refspecs with
        | some specs =>
            simp only [fetch_install_and_transfer]
            split <;> rfl
        | none =>
            simp only [fetch_install_and_transfer]
            split
            · rfl
            · split <;> rfl
  exact ⟨h, by rw [h]⟩

/-- C4: whenever the transient working remote was successfully created, every
exit path of the fetch — success, callback-set error, refspec-installation
error, transfer error — frees it exactly once, and the free happens before
the outcome (a raise or a normal return) is delivered. -/
theorem fetch_frees_working_remote_on_every_path (remote : GitRemote)
    (rb_refspecs : Option (List String)) (env : FetchEnv) (h : ¬ env.createErr < 0) :
    ((rb_git_remote_fetch remote rb_refspecs env).trace).count FetchAction.freeTmpRemote = 1 ∧
    ((rb_git_remote_fetch remote rb_refspecs env).trace).head? =
      some FetchAction.freeTmpRemote := by
  unfold rb_git_remote_fetch
  rw [if_neg h]
  by_cases h1 : env.setCallbacksErr ≠ 0
  · rw [if_pos h1]
    exact ⟨count_free_outcome_pair _ _, rfl⟩
  · rw [if_neg h1]
    cases rb_refspecs with
    | some specs =>
        simp only [fetch_install_and_transfer]
        by_cases h2 : (add_fetch_loop (fetch_tmp_remote remote) specs).1 ≠ 0
        · rw [if_pos h2]
          exact ⟨count_free_outcome_pair _ _, rfl⟩
        · rw [if_neg h2]
          exact ⟨count_free_outcome_pair _ _, rfl⟩
    | none =>
        simp only [fetch_install_and_transfer]
        by_cases h2 : env.getRefspecsErr ≠ 0
        · rw [if_pos h2]
          exact ⟨count_free_outcome_pair _ _, rfl⟩
        · rw [if_neg h2]
          by_cases h3 : env.setRefspecsErr ≠ 0
          · rw [if_pos h3]
            exact ⟨count_free_outcome_pair _ _, rfl⟩
          · rw [if_neg h3]
            exact ⟨count_free_outcome_pair _ _, rfl⟩

/-- C4 witness: a fully successful fetch of a concrete remote frees the
working remote exactly once, before its outcome. -/
theorem fetch_frees_working_remote_on_every_path_witness :
    ((rb_git_remote_fetch
      { name := some "origin", url := "git://example.com/repo.git", pushurl := none,
        fetchRefspecs := ["+refs/heads/*:refs/remotes/origin/*"], pushRefspecs := [],
        autotag := AutotagPolicy.tagsAuto } none
      { createErr := 0, setCallbacksErr := 0, getRefspecsErr := 0, setRefspecsErr := 0,
        transferErr := 0, callbackException := 0 }).trace).count FetchAction.freeTmpRemote = 1 ∧
    ((rb_git_remote_fetch
      { name := some "origin", url := "git://example.com/repo.git", pushurl := none,
        fetchRefspecs := ["+refs/heads/*:refs/remotes/origin/*"], pushRefspecs := [],
        autotag := AutotagPolicy.tagsAuto } none
      { createErr := 0, setCallbacksErr := 0, getRefspecsErr := 0, setRefspecsErr := 0,
        transferErr := 0, callbackException := 0 }).trace).head? =
      some FetchAction.freeTmpRemote :=
  fetch_frees_working_remote_on_every_path _ none _ (by decide)

/-- The yield loop of remote.ls never emits a disconnect action. -/
theorem ls_yield_loop_count_disconnect (exc : Nat → Int) (heads : List GitRemoteHead) (i : Nat) :
    ((ls_yield_loop exc heads i).1).count LsAction.disconnect = 0 := by
  induction heads generalizing i with
  | nil => rfl
  | cons h rest ih =>
      unfold ls_yield_loop
      split
      · rfl
      · simpa using ih (i + 1)

/-- The epilogue pair of remote.ls contains exactly one disconnect action. -/
theorem count_disconnect_outcome_pair (e x : Int) :
    ([LsAction.disconnect, ls_outcome e x]).count LsAction.disconnect = 1 := by
  unfold ls_outcome rugged_exception_check
  split
  · rfl
  · split <;> rfl

/-- C3: once the connect step of remote.ls has succeeded, disconnect happens
exactly once on every path — whether the consumer drains all heads, the
listing call fails, or the consumer raises after any prefix of the heads
(including the very first). -/
theorem ls_disconnects_exactly_once (env : LsEnv) (h : ¬ env.connectErr < 0) :
    (rb_git_remote_ls env).count LsAction.disconnect = 1 := by
  unfold rb_git_remote_ls
  rw [if_neg h]
  rw [List.count_append]
  rw [List.count_cons]
  rw [ls_yield_loop_count_disconnect]
  rw [count_disconnect_outcome_pair]
  rfl

/-- C3 witness: remote.ls on a concrete environment where the consumer raises
at the very first head while the listing also failed, disconnecting exactly
once. -/
theorem ls_disconnects_exactly_once_witness :
    (rb_git_remote_ls
      { connectErr := 0, lsErr := -1,
        heads := [{ isLocal := false, oid := "b3ee97a9", loid := "", name := "refs/heads/main" }],
        yieldException := fun _ => 6 }).count LsAction.disconnect = 1 :=
  ls_disconnects_exactly_once _ (by decide)

/-- C5: when both a callback-originated error and a transport-level error are
pending as the operation unwinds, the callback's error is the one re-raised,
unchanged, and only after cleanup: a fetch that reached the transfer frees the
working remote and then re-raises the pending callback exception (the negative
transfer code is never surfaced), and an ls whose consumer raised disconnects
and then re-raises the consumer's own exception (the negative listing code is
never surfaced). -/
theorem callback_error_takes_precedence_after_cleanup :
    (∀ (remote : GitRemote) (rb_refspecs : Option (List String)) (env : FetchEnv),
      (rb_git_remote_fetch remote rb_refspecs env).transferRan = true →
      env.callbackException ≠ 0 →
      env.transferErr < 0 →
      (rb_git_remote_fetch remote rb_refspecs env).trace =
        [FetchAction.freeTmpRemote, FetchAction.raiseJump env.callbackException]) ∧
    (∀ env : LsEnv,
      ¬ env.connectErr < 0 →
      (ls_yield_loop env.yieldException env.heads 0).2 ≠ 0 →
      env.lsErr < 0 →
      rb_git_remote_ls env =
        LsAction.connect :: (ls_yield_loop env.yieldException env.heads 0).1 ++
          [LsAction.disconnect,
           LsAction.raiseJump (ls_yield_loop env.yieldException env.heads 0).2]) := by
  constructor
  · intro remote rb_refspecs env hran hexc htr
    unfold rb_git_remote_fetch at hran ⊢
    by_cases h0 : env.createErr < 0
    · rw [if_pos h0] at hran
      exact absurd hran (by simp)
    · rw [if_neg h0] at hran ⊢
      by_cases h1 : env.setCallbacksErr ≠ 0
      · rw [if_pos h1] at hran
        exact absurd hran (by simp [fetch_cleanup])
      · rw [if_neg h1] at hran ⊢
        cases rb_refspecs with
        | some specs =>
            simp only [fetch_install_and_transfer] at hran ⊢
            by_cases h2 : (add_fetch_loop (fetch_tmp_remote remote) specs).1 ≠ 0
            · rw [if_pos h2] at hran
              exact absurd hran (by simp [fetch_cleanup])
            · rw [if_neg h2]
              unfold fetch_cleanup fetch_outcome
              rw [if_pos hexc]
        | none =>
            simp only [fetch_install_and_transfer] at hran ⊢
            by_cases h2 : env.getRefspecsErr ≠ 0
            · rw [if_pos h2] at hran
              exact absurd hran (by simp [fetch_cleanup])
            · rw [if_neg h2] at hran ⊢
              by_cases h3 : env.setRefspecsErr ≠ 0
              · rw [if_pos h3] at hran
                exact absurd hran (by simp [fetch_cleanup])
              · rw [if_neg h3]
                unfold fetch_cleanup fetch_outcome
                rw [if_pos hexc]
  · intro env h1 h2 h3
    unfold rb_git_remote_ls ls_outcome
    rw [if_neg h1, if_pos h2]

/-- C5 witness: a fetch with a pending callback exception (tag 6) and a failed
transfer re-raises tag 6 after freeing the working remote, and an ls whose
consumer raised tag 6 at the first head while the listing failed re-raises
tag 6 after disconnecting. -/
theorem callback_error_takes_precedence_after_cleanup_witness :
    (rb_git_remote_fetch
      { name := some "origin", url := "git://example.com/repo.git", pushurl := none,
        fetchRefspecs := ["+refs/heads/*:refs/remotes/origin/*"], pushRefspecs := [],
        autotag := AutotagPolicy.tagsAuto } none
      { createErr := 0, setCallbacksErr := 0, getRefspecsErr := 0, setRefspecsErr := 0,
        transferErr := -1, callbackException := 6 }).trace =
      [FetchAction.freeTmpRemote, FetchAction.raiseJump 6] ∧
    rb_git_remote_ls
      { connectErr := 0, lsErr := -1,
        heads := [{ isLocal := false, oid := "b3ee97a9", loid := "", name := "refs/heads/main" }],
        yieldException := fun _ => 6 } =
      [LsAction.connect,
       LsAction.yieldHead
         { isLocal := false, oid := "b3ee97a9", loid := none, name := "refs/heads/main" },
       LsAction.disconnect, LsAction.raiseJump 6] := by
  constructor
  · exact callback_error_takes_precedence_after_cleanup.1 _ none _ (by decide) (by decide)
      (by decide)
  · exact callback_error_takes_precedence_after_cleanup.2 _ (by decide) (by decide) (by decide)
